import Mathlib

/-!
Shallow embedding of `rustaffy/netcore` (`src/main.rs`), a dual-stack echo
server.  Network effects are modelled by explicit environments: a `NetEnv`
records, for every port, whether a TCP bind on the unspecified IPv4 address
(`0.0.0.0:port`) and on the unspecified IPv6 address (`[::]:port`) would
succeed; task-join outcomes and scheduling delays of the tokio runtime are
extra oracle functions.  Every definition mirrors one Rust function of the
source and keeps its name.
-/

namespace Netcore

/-- Network environment: the outcome of binding a TCP listener on the
unspecified IPv4 address respectively the unspecified IPv6 address at a
given port (`true` = the bind succeeds). -/
structure NetEnv where
  bindV4 : Nat → Bool
  bindV6 : Nat → Bool

/-- Embedding of `check_port_ipv4`: `TcpListener::bind(0.0.0.0:port).is_ok()`. -/
def check_port_ipv4 (env : NetEnv) (port : Nat) : Bool :=
  env.bindV4 port

/-- Embedding of `check_port_ipv6`: `TcpListener::bind([::]:port).is_ok()`. -/
def check_port_ipv6 (env : NetEnv) (port : Nat) : Bool :=
  env.bindV6 port

/-- Embedding of `is_port_available`: joins the two checks and conjoins the
results (`ipv4_ok && ipv6_ok`). -/
def is_port_available (env : NetEnv) (port : Nat) : Bool :=
  check_port_ipv4 env port && check_port_ipv6 env port

/-- A spawned probe task as the scanner sees it: the port it was spawned
for, the join outcome (`none` models a `JoinError`, `some b` a completed
probe that reported availability `b`), and the instant at which the task
completes (scheduling delay injected by the runtime). -/
structure TaskHandle where
  port : Nat
  result : Option Bool
  readyAt : Nat

/-- The task `tokio::spawn`ed for one port inside
`find_available_port_parallel`: it evaluates `(port, is_port_available(port))`;
`joinOk` tells whether awaiting its join handle yields `Ok`, and `delay`
gives its completion instant. -/
def spawn_probe (env : NetEnv) (joinOk : Nat → Bool) (delay : Nat → Nat)
    (port : Nat) : TaskHandle :=
  { port := port
    result := if joinOk port then some (is_port_available env port) else none
    readyAt := delay port }

/-- The Rust iterator `start..=end` as a list (empty when `start > end`). -/
def portRange (start e : Nat) : List Nat :=
  List.range' start (e + 1 - start)

/-- Awaiting a join handle: the awaiting task is suspended until the probe
task has completed (time advances to at least `readyAt`), and the join
outcome is returned.  The value returned never depends on the instant of
completion, only on the probe's result. -/
def await_task (now : Nat) (t : TaskHandle) : Nat × Option Bool :=
  (max now t.readyAt, t.result)

/-- The `for task in tasks` loop of `find_available_port_parallel`: handles
are awaited in spawn order; a join error (`Ok` pattern fails) is skipped, a
completed probe with `available = true` returns that task's port at once. -/
def scan_loop : Nat → List TaskHandle → Option Nat
  | _, [] => none
  | now, t :: ts =>
    let res := await_task now t
    match res.2 with
    | some true => some t.port
    | _ => scan_loop res.1 ts

/-- Embedding of `find_available_port_parallel`: spawn one probe per port of
`start..=end` (all before any is awaited), then await them in spawn order
and return the first port whose probe reported available. -/
def find_available_port_parallel (env : NetEnv) (joinOk : Nat → Bool)
    (delay : Nat → Nat) (start e : Nat) : Option Nat :=
  scan_loop 0 ((portRange start e).map (spawn_probe env joinOk delay))

/-- The availability condition the scan loop selects on: the probe task for
`p` joined successfully and reported `is_port_available p = true`. -/
def probe_hit (env : NetEnv) (joinOk : Nat → Bool) (p : Nat) : Bool :=
  joinOk p && is_port_available env p

/-- An IP address together with its family, as carried by
`std::net::IpAddr` (the payload of each family is abstracted to a `Nat`). -/
inductive IpAddr where
  | v4 (a : Nat)
  | v6 (a : Nat)
deriving DecidableEq

/-- The `HostInfo` struct of the source: four independent optional
addresses. -/
structure HostInfo where
  local_ipv4 : Option Nat
  public_ipv4 : Option Nat
  local_ipv6 : Option Nat
  public_ipv6 : Option Nat
deriving DecidableEq

/-- `tokio::time::timeout`: yields `Except.error ()` when the 2-second
deadline elapses first, otherwise the wrapped future's value. -/
def timeoutRun (elapsed : Bool) (v : α) : Except Unit α :=
  if elapsed then Except.error () else Except.ok v

/-- Embedding of `get_local_ipv4`: runs the external `local_ip()` lookup on
a blocking thread (its result `res` is `error` when the lookup failed),
turns the `Result` into an `Option`, keeps only an IPv4 family value, and maps a
failed `spawn_blocking` join (`joinOk = false`) to `none` via
`.ok().flatten()`. -/
def get_local_ipv4 (joinOk : Bool) (res : Except Unit IpAddr) : Option Nat :=
  let blocked : Option Nat :=
    res.toOption.bind fun ip =>
      match ip with
      | .v4 a => some a
      | .v6 _ => none
  ((if joinOk then Except.ok blocked else Except.error ()) :
      Except Unit (Option Nat)).toOption.join

/-- Embedding of `get_local_ipv6`: same shape as `get_local_ipv4` with the
external `local_ipv6()` lookup, keeping only an IPv6 family value. -/
def get_local_ipv6 (joinOk : Bool) (res : Except Unit IpAddr) : Option Nat :=
  let blocked : Option Nat :=
    res.toOption.bind fun ip =>
      match ip with
      | .v4 _ => none
      | .v6 a => some a
  ((if joinOk then Except.ok blocked else Except.error ()) :
      Except Unit (Option Nat)).toOption.join

/-- The oracle inputs of one `get_host_info` run: for each of the four
lookups, whether its 2-second timeout elapsed; the join outcome and raw
result of the two local lookups; and the optional addresses produced by the
two external public-IP lookups. -/
structure LookupWorld where
  elapsedLocal4 : Bool
  elapsedPublic4 : Bool
  elapsedLocal6 : Bool
  elapsedPublic6 : Bool
  joinLocal4 : Bool
  localIpRes : Except Unit IpAddr
  publicV4 : Option Nat
  joinLocal6 : Bool
  localIpv6Res : Except Unit IpAddr
  publicV6 : Option Nat

/-- Embedding of `get_host_info`: the four lookups run under `tokio::join!`,
each wrapped in a 2-second `timeout`, and each slot is
`timeout(..).ok().flatten()` of its own lookup only. -/
def get_host_info (w : LookupWorld) : HostInfo :=
  { local_ipv4 :=
      (timeoutRun w.elapsedLocal4 (get_local_ipv4 w.joinLocal4 w.localIpRes)).toOption.join
    public_ipv4 := (timeoutRun w.elapsedPublic4 w.publicV4).toOption.join
    local_ipv6 :=
      (timeoutRun w.elapsedLocal6 (get_local_ipv6 w.joinLocal6 w.localIpv6Res)).toOption.join
    public_ipv6 := (timeoutRun w.elapsedPublic6 w.publicV6).toOption.join }

/-- Result of one `socket.read(&mut buffer)` call in `handle_client`:
`ok data` is `Ok(n)` delivering the bytes `data` (with `n = data.length`,
so `ok []` is `Ok(0)`, the peer-closed signal), `failed` is `Err(_)`. -/
inductive ReadEvent where
  | ok (data : List Nat)
  | failed
deriving DecidableEq

/-- Why `handle_client` left its loop. -/
inductive StopReason where
  | peerClosed
  | readFailed
  | writeFailed
deriving DecidableEq

/-- Embedding of `handle_client`'s loop over the successive outcomes of its
`read` calls.  `writeOk chunk` tells whether `write_all(chunk)` succeeds.
Returns the chunks echoed back (in order) and why the loop stopped (`none`
when the event list ran out with the connection still open, i.e. the real
loop would be blocked in the next `read`). -/
def handle_client (writeOk : List Nat → Bool) :
    List ReadEvent → List (List Nat) × Option StopReason
  | [] => ([], none)
  | ReadEvent.failed :: _ => ([], some StopReason.readFailed)
  | ReadEvent.ok data :: rest =>
    if data.length = 0 then ([], some StopReason.peerClosed)
    else if writeOk data then
      let r := handle_client writeOk rest
      (data :: r.1, r.2)
    else ([], some StopReason.writeFailed)

/-- Outcome of `main`'s port phase: the scanner found no port (the program
prints a failure message and never binds a listener), one of the two real
binds failed (`.unwrap()` panicked, terminating the run), or both listeners
were bound and the accept loops run on `port`. -/
inductive MainResult where
  | noPort
  | panicked
  | serving (port : Nat)
deriving DecidableEq

/-- Embedding of `main` after address printing: scan `6881..=6900` with
`find_available_port_parallel`, then bind the IPv4 listener and the IPv6
listener on the selected port, `.unwrap()`ing each.  `bindEnv` is the
network state at real-bind time (it may differ from the `probeEnv` the scan
observed: the check-then-act race). -/
def main (probeEnv bindEnv : NetEnv) (joinOk : Nat → Bool)
    (delay : Nat → Nat) : MainResult :=
  match find_available_port_parallel probeEnv joinOk delay 6881 6900 with
  | some port =>
    if bindEnv.bindV4 port then
      if bindEnv.bindV6 port then MainResult.serving port
      else MainResult.panicked
    else MainResult.panicked
  | none => MainResult.noPort

theorem scan_loop_now_irrelevant (ts : List TaskHandle) :
    ∀ n₁ n₂, scan_loop n₁ ts = scan_loop n₂ ts := by
  induction ts with
  | nil => intro n₁ n₂; rfl
  | cons t ts ih =>
    intro n₁ n₂
    simp only [scan_loop, await_task]
    cases h : t.result with
    | none => exact ih _ _
    | some b => cases b with
      | false => exact ih _ _
      | true => rfl

theorem scan_loop_eq_find (env : NetEnv) (joinOk : Nat → Bool)
    (delay : Nat → Nat) (l : List Nat) (now : Nat) :
    scan_loop now (l.map (spawn_probe env joinOk delay)) =
      l.find? (probe_hit env joinOk) := by
  induction l generalizing now with
  | nil => rfl
  | cons p ps ih =>
    simp only [List.map_cons, scan_loop, await_task, spawn_probe, probe_hit,
      List.find?]
    cases hj : joinOk p with
    | false => simpa using ih _
    | true =>
      cases ha : is_port_available env p with
      | false => simpa using ih _
      | true => simp

theorem find?_range'_eq_some (f : Nat → Bool) :
    ∀ (n s p : Nat), (List.range' s n).find? f = some p ↔
      (s ≤ p ∧ p < s + n ∧ f p = true ∧
        ∀ q, s ≤ q → q < p → f q = false) := by
  intro n
  induction n with
  | zero =>
    intro s p
    simp only [List.range', List.find?_nil]
    constructor
    · intro h; exact Option.noConfusion h
    · rintro ⟨h1, h2, h3, h4⟩; omega
  | succ n ih =>
    intro s p
    simp only [List.range', List.find?]
    cases hs : f s with
    | true =>
      simp only [Option.some.injEq]
      constructor
      · rintro rfl
        exact ⟨le_refl _, by omega, hs, fun q hq hq2 => by omega⟩
      · rintro ⟨h1, _, hp, hmin⟩
        by_contra hne
        have hlt : s < p := lt_of_le_of_ne h1 hne
        have := hmin s (le_refl _) hlt
        rw [this] at hs; exact Bool.noConfusion hs
    | false =>
      rw [ih]
      constructor
      · rintro ⟨h1, h2, hp, hmin⟩
        refine ⟨by omega, by omega, hp, fun q hq hq2 => ?_⟩
        rcases Nat.eq_or_lt_of_le hq with rfl | hlt
        · exact hs
        · exact hmin q hlt hq2
      · rintro ⟨h1, h2, hp, hmin⟩
        have hsp : s < p := by
          rcases Nat.eq_or_lt_of_le h1 with rfl | h
          · rw [hp] at hs; exact Bool.noConfusion hs
          · exact h
        exact ⟨hsp, by omega, hp, fun q hq hq2 => hmin q (by omega) hq2⟩

theorem find_spec (env : NetEnv) (joinOk : Nat → Bool) (delay : Nat → Nat)
    (start e p : Nat) :
    find_available_port_parallel env joinOk delay start e = some p ↔
      (start ≤ p ∧ p ≤ e ∧ probe_hit env joinOk p = true ∧
        ∀ q, start ≤ q → q < p → probe_hit env joinOk q = false) := by
  unfold find_available_port_parallel portRange
  rw [scan_loop_eq_find, find?_range'_eq_some]
  constructor
  · rintro ⟨h1, h2, h3, h4⟩
    exact ⟨h1, by omega, h3, h4⟩
  · rintro ⟨h1, h2, h3, h4⟩
    exact ⟨h1, by omega, h3, h4⟩

theorem get_host_info_local_ipv4 (w : LookupWorld) :
    (get_host_info w).local_ipv4 =
      if w.elapsedLocal4 then none
      else get_local_ipv4 w.joinLocal4 w.localIpRes := by
  cases h : w.elapsedLocal4 <;>
    simp [get_host_info, timeoutRun, h, Except.toOption, Option.join]

theorem get_host_info_public_ipv4 (w : LookupWorld) :
    (get_host_info w).public_ipv4 =
      if w.elapsedPublic4 then none else w.publicV4 := by
  cases h : w.elapsedPublic4 <;>
    simp [get_host_info, timeoutRun, h, Except.toOption, Option.join]

theorem get_host_info_local_ipv6 (w : LookupWorld) :
    (get_host_info w).local_ipv6 =
      if w.elapsedLocal6 then none
      else get_local_ipv6 w.joinLocal6 w.localIpv6Res := by
  cases h : w.elapsedLocal6 <;>
    simp [get_host_info, timeoutRun, h, Except.toOption, Option.join]

theorem get_host_info_public_ipv6 (w : LookupWorld) :
    (get_host_info w).public_ipv6 =
      if w.elapsedPublic6 then none else w.publicV6 := by
  cases h : w.elapsedPublic6 <;>
    simp [get_host_info, timeoutRun, h, Except.toOption, Option.join]

theorem get_local_ipv4_join_fail (res : Except Unit IpAddr) :
    get_local_ipv4 false res = none := rfl

theorem get_local_ipv4_lookup_err :
    ∀ j, get_local_ipv4 j (Except.error ()) = none := by
  intro j; cases j <;> rfl

theorem get_local_ipv4_wrong_family (a : Nat) :
    ∀ j, get_local_ipv4 j (Except.ok (IpAddr.v6 a)) = none := by
  intro j; cases j <;> rfl

theorem get_local_ipv6_join_fail (res : Except Unit IpAddr) :
    get_local_ipv6 false res = none := rfl

theorem get_local_ipv6_lookup_err :
    ∀ j, get_local_ipv6 j (Except.error ()) = none := by
  intro j; cases j <;> rfl

theorem get_local_ipv6_wrong_family (a : Nat) :
    ∀ j, get_local_ipv6 j (Except.ok (IpAddr.v4 a)) = none := by
  intro j; cases j <;> rfl

/-- A network environment in which every bind succeeds on every port. -/
def envAllFree : NetEnv :=
  { bindV4 := fun _ => true, bindV6 := fun _ => true }

/-- A network environment in which every IPv4 bind fails. -/
def envV4Busy : NetEnv :=
  { bindV4 := fun _ => false, bindV6 := fun _ => true }

/-- A lookup world where every lookup times out, errors or fails to join. -/
def worldAllFail : LookupWorld :=
  { elapsedLocal4 := true, elapsedPublic4 := true, elapsedLocal6 := true
    elapsedPublic6 := true, joinLocal4 := true, localIpRes := Except.error ()
    publicV4 := none, joinLocal6 := true, localIpv6Res := Except.error ()
    publicV6 := none }

/-- Claim C1: for every range and every availability outcome of the
per-port probes, `find_available_port_parallel` returns the lowest port of
`[start, e]` whose probe reported available, independently of the probe
tasks' completion instants: a probe for a lower port always wins over a
faster-completing probe for a higher port. -/
theorem claim_C1 (env : NetEnv) (joinOk : Nat → Bool) (d d' : Nat → Nat)
    (start e p : Nat) :
    find_available_port_parallel env joinOk d start e =
      find_available_port_parallel env joinOk d' start e ∧
    (find_available_port_parallel env joinOk d start e = some p ↔
      (start ≤ p ∧ p ≤ e ∧ probe_hit env joinOk p = true ∧
        ∀ q, start ≤ q → q < p → probe_hit env joinOk q = false)) := by
  constructor
  · unfold find_available_port_parallel
    rw [scan_loop_eq_find, scan_loop_eq_find]
  · exact find_spec env joinOk d start e p

/-- A network environment in which ports below 4 are busy on IPv4. -/
def envLowBusy : NetEnv :=
  { bindV4 := fun p => decide (4 ≤ p), bindV6 := fun _ => true }

/-- Claim C1 witness: on a concrete range with the low ports busy, two runs
with very different completion delays return the same port. -/
theorem claim_C1_witness :
    find_available_port_parallel envLowBusy (fun _ => true) (fun _ => 0) 3 6 =
      find_available_port_parallel envLowBusy (fun _ => true)
        (fun p => 100 - p) 3 6 :=
  (claim_C1 envLowBusy (fun _ => true) (fun _ => 0) (fun p => 100 - p)
    3 6 0).1

/-- Claim C2: `is_port_available port` is true precisely when both the bind
on the unspecified IPv4 address and the bind on the unspecified IPv6
address at `port` succeed; if either bind fails it is false. -/
theorem claim_C2 (env : NetEnv) (port : Nat) :
    (is_port_available env port = true ↔
      env.bindV4 port = true ∧ env.bindV6 port = true) ∧
    ((env.bindV4 port = false ∨ env.bindV6 port = false) →
      is_port_available env port = false) := by
  unfold is_port_available check_port_ipv4 check_port_ipv6
  constructor
  · exact Iff.of_eq (Bool.and_eq_true _ _)
  · rintro (h | h) <;> simp [h]

/-- Claim C2 witness: with every IPv4 bind failing, port 6881 is reported
unavailable. -/
theorem claim_C2_witness : is_port_available envV4Busy 6881 = false :=
  (claim_C2 envV4Busy 6881).2 (Or.inl rfl)

/-- Claim C3: when `start ≤ e` and every probe of the range completes
reporting available, the scanner returns `some start`. -/
theorem claim_C3 (env : NetEnv) (joinOk : Nat → Bool) (delay : Nat → Nat)
    (start e : Nat) (hse : start ≤ e)
    (hall : ∀ p, start ≤ p → p ≤ e →
      joinOk p = true ∧ is_port_available env p = true) :
    find_available_port_parallel env joinOk delay start e = some start := by
  rw [find_spec]
  have h := hall start (le_refl _) hse
  refine ⟨le_refl _, hse, ?_, fun q hq hq2 => absurd hq2 (by omega)⟩
  unfold probe_hit
  rw [h.1, h.2]
  rfl

/-- Claim C3 witness: on the all-free environment the scan of
`6881..=6900` returns `6881`. -/
theorem claim_C3_witness :
    find_available_port_parallel envAllFree (fun _ => true) (fun _ => 0)
      6881 6900 = some 6881 :=
  claim_C3 envAllFree (fun _ => true) (fun _ => 0) 6881 6900 (by omega)
    (fun _ _ _ => ⟨rfl, rfl⟩)

/-- Claim C4: when every probe of the range completes reporting
unavailable, the scanner returns `none` (a normal value, not an error). -/
theorem claim_C4 (env : NetEnv) (joinOk : Nat → Bool) (delay : Nat → Nat)
    (start e : Nat)
    (hall : ∀ p, start ≤ p → p ≤ e →
      joinOk p = true ∧ is_port_available env p = false) :
    find_available_port_parallel env joinOk delay start e = none := by
  unfold find_available_port_parallel portRange
  rw [scan_loop_eq_find, List.find?_eq_none]
  intro x hx
  rw [List.mem_range'_1] at hx
  have h := hall x hx.1 (by omega)
  unfold probe_hit
  rw [h.1, h.2]
  simp

/-- Claim C4 witness: with every IPv4 bind failing, the scan of
`6881..=6900` returns `none`. -/
theorem claim_C4_witness :
    find_available_port_parallel envV4Busy (fun _ => true) (fun _ => 0)
      6881 6900 = none :=
  claim_C4 envV4Busy (fun _ => true) (fun _ => 0) 6881 6900
    (fun _ _ _ => ⟨rfl, rfl⟩)

/-- Claim C5: for `start > e` the scanner returns `none` and the list of
spawned probe tasks is empty, so no bind is ever attempted. -/
theorem claim_C5 (env : NetEnv) (joinOk : Nat → Bool) (delay : Nat → Nat)
    (start e : Nat) (h : e < start) :
    find_available_port_parallel env joinOk delay start e = none ∧
    (portRange start e).map (spawn_probe env joinOk delay) = [] := by
  have hr : portRange start e = [] := by
    unfold portRange
    have : e + 1 - start = 0 := by omega
    rw [this]
    rfl
  unfold find_available_port_parallel
  rw [hr]
  exact ⟨rfl, rfl⟩

/-- Claim C5 witness: scanning `[6900, 6881]` returns `none` with an empty
spawn list. -/
theorem claim_C5_witness :
    find_available_port_parallel envAllFree (fun _ => true) (fun _ => 0)
      6900 6881 = none ∧
    (portRange 6900 6881).map
      (spawn_probe envAllFree (fun _ => true) (fun _ => 0)) = [] :=
  claim_C5 envAllFree (fun _ => true) (fun _ => 0) 6900 6881 (by omega)

/-- Claim C6: a probe task whose join fails is treated as if its port were
unavailable — the whole scan behaves exactly like one in which every join
succeeds but the failed ports probe unavailable — and the await loop, on a
join error at the head, simply continues with the remaining handles. -/
theorem claim_C6 (env : NetEnv) (joinOk : Nat → Bool) (delay : Nat → Nat)
    (start e now p r : Nat) (ts : List TaskHandle) :
    find_available_port_parallel env joinOk delay start e =
      find_available_port_parallel
        { bindV4 := fun q => joinOk q && env.bindV4 q, bindV6 := env.bindV6 }
        (fun _ => true) delay start e ∧
    scan_loop now (TaskHandle.mk p none r :: ts) = scan_loop (max now r) ts := by
  constructor
  · unfold find_available_port_parallel
    rw [scan_loop_eq_find, scan_loop_eq_find]
    have : probe_hit env joinOk =
        probe_hit
          { bindV4 := fun q => joinOk q && env.bindV4 q, bindV6 := env.bindV6 }
          (fun _ => true) := by
      funext q
      show (joinOk q && (env.bindV4 q && env.bindV6 q)) =
        (true && ((joinOk q && env.bindV4 q) && env.bindV6 q))
      cases joinOk q <;> cases env.bindV4 q <;> cases env.bindV6 q <;> rfl
    rw [this]
  · rfl

/-- Claim C6 witness: a scan in which the probe for port 3 hits a join
error equals a scan in which that probe completed reporting port 3
unavailable. -/
theorem claim_C6_witness :
    find_available_port_parallel envAllFree (fun p => decide (p ≠ 3))
      (fun _ => 0) 3 6 =
    find_available_port_parallel
      { bindV4 := fun q => decide (q ≠ 3) && envAllFree.bindV4 q
        bindV6 := envAllFree.bindV6 }
      (fun _ => true) (fun _ => 0) 3 6 := by
  exact (claim_C6 envAllFree (fun p => decide (p ≠ 3)) (fun _ => 0)
    3 6 0 0 0 []).1

/-- Claim C7: in `get_host_info`, a lookup that times out, errors, returns
the wrong address family, or whose blocking task fails to join resolves to
an absent field; and each of the four fields depends only on its own
lookup's outcome, independent of the other three. -/
theorem claim_C7 (w w' : LookupWorld) (a : Nat) :
    (w.elapsedLocal4 = true → (get_host_info w).local_ipv4 = none) ∧
    (w.elapsedPublic4 = true → (get_host_info w).public_ipv4 = none) ∧
    (w.elapsedLocal6 = true → (get_host_info w).local_ipv6 = none) ∧
    (w.elapsedPublic6 = true → (get_host_info w).public_ipv6 = none) ∧
    (w.localIpRes = Except.error () → (get_host_info w).local_ipv4 = none) ∧
    (w.joinLocal4 = false → (get_host_info w).local_ipv4 = none) ∧
    (w.publicV4 = none → (get_host_info w).public_ipv4 = none) ∧
    (w.localIpv6Res = Except.error () → (get_host_info w).local_ipv6 = none) ∧
    (w.joinLocal6 = false → (get_host_info w).local_ipv6 = none) ∧
    (w.publicV6 = none → (get_host_info w).public_ipv6 = none) ∧
    (w.localIpRes = Except.ok (IpAddr.v6 a) →
      (get_host_info w).local_ipv4 = none) ∧
    (w.localIpv6Res = Except.ok (IpAddr.v4 a) →
      (get_host_info w).local_ipv6 = none) ∧
    (w.elapsedLocal4 = w'.elapsedLocal4 → w.joinLocal4 = w'.joinLocal4 →
      w.localIpRes = w'.localIpRes →
      (get_host_info w).local_ipv4 = (get_host_info w').local_ipv4) ∧
    (w.elapsedPublic4 = w'.elapsedPublic4 → w.publicV4 = w'.publicV4 →
      (get_host_info w).public_ipv4 = (get_host_info w').public_ipv4) ∧
    (w.elapsedLocal6 = w'.elapsedLocal6 → w.joinLocal6 = w'.joinLocal6 →
      w.localIpv6Res = w'.localIpv6Res →
      (get_host_info w).local_ipv6 = (get_host_info w').local_ipv6) ∧
    (w.elapsedPublic6 = w'.elapsedPublic6 → w.publicV6 = w'.publicV6 →
      (get_host_info w).public_ipv6 = (get_host_info w').public_ipv6) := by
  refine ⟨?_, ?_, ?_, ?_, ?_, ?_, ?_, ?_, ?_, ?_, ?_, ?_, ?_, ?_, ?_, ?_⟩
  · intro h; simp [get_host_info_local_ipv4, h]
  · intro h; simp [get_host_info_public_ipv4, h]
  · intro h; simp [get_host_info_local_ipv6, h]
  · intro h; simp [get_host_info_public_ipv6, h]
  · intro h; simp [get_host_info_local_ipv4, h, get_local_ipv4_lookup_err]
  · intro h; simp [get_host_info_local_ipv4, h, get_local_ipv4_join_fail]
  · intro h; simp [get_host_info_public_ipv4, h]
  · intro h; simp [get_host_info_local_ipv6, h, get_local_ipv6_lookup_err]
  · intro h; simp [get_host_info_local_ipv6, h, get_local_ipv6_join_fail]
  · intro h; simp [get_host_info_public_ipv6, h]
  · intro h; simp [get_host_info_local_ipv4, h, get_local_ipv4_wrong_family]
  · intro h; simp [get_host_info_local_ipv6, h, get_local_ipv6_wrong_family]
  · intro h1 h2 h3
    rw [get_host_info_local_ipv4, get_host_info_local_ipv4, h1, h2, h3]
  · intro h1 h2
    rw [get_host_info_public_ipv4, get_host_info_public_ipv4, h1, h2]
  · intro h1 h2 h3
    rw [get_host_info_local_ipv6, get_host_info_local_ipv6, h1, h2, h3]
  · intro h1 h2
    rw [get_host_info_public_ipv6, get_host_info_public_ipv6, h1, h2]

/-- Claim C7 witness: in the world where every lookup fails, all four
fields of the returned `HostInfo` are absent. -/
theorem claim_C7_witness :
    (get_host_info worldAllFail).local_ipv4 = none ∧
    (get_host_info worldAllFail).public_ipv4 = none ∧
    (get_host_info worldAllFail).local_ipv6 = none ∧
    (get_host_info worldAllFail).public_ipv6 = none :=
  ⟨(claim_C7 worldAllFail worldAllFail 0).1 rfl,
   (claim_C7 worldAllFail worldAllFail 0).2.1 rfl,
   (claim_C7 worldAllFail worldAllFail 0).2.2.1 rfl,
   (claim_C7 worldAllFail worldAllFail 0).2.2.2.1 rfl⟩

/-- Claim C8: if the scanner returns `none`, `main` reports failure and
binds no listener; if it returns a port and either real bind on that port
fails, the run terminates fatally (the `.unwrap()` panics — no retry, no
re-scan). -/
theorem claim_C8 (probeEnv bindEnv : NetEnv) (joinOk : Nat → Bool)
    (delay : Nat → Nat) (p : Nat) :
    (find_available_port_parallel probeEnv joinOk delay 6881 6900 = none →
      main probeEnv bindEnv joinOk delay = MainResult.noPort) ∧
    (find_available_port_parallel probeEnv joinOk delay 6881 6900 = some p →
      (bindEnv.bindV4 p = false ∨ bindEnv.bindV6 p = false) →
      main probeEnv bindEnv joinOk delay = MainResult.panicked) := by
  unfold main
  constructor
  · intro h
    rw [h]
  · intro h hb
    rw [h]
    show (if bindEnv.bindV4 p = true then
            if bindEnv.bindV6 p = true then MainResult.serving p
            else MainResult.panicked
          else MainResult.panicked) = MainResult.panicked
    rcases hb with hb | hb <;> simp [hb]

/-- Claim C8 witness: a scan that finds 6881 free followed by a real-bind
environment where IPv4 binds fail makes `main` panic. -/
theorem claim_C8_witness :
    main envAllFree envV4Busy (fun _ => true) (fun _ => 0) =
      MainResult.panicked :=
  (claim_C8 envAllFree envV4Busy (fun _ => true) (fun _ => 0) 6881).2
    (by decide) (Or.inl rfl)

/-- Claim C9: `handle_client` echoes every received chunk back verbatim and
in order, and keeps running until a read of zero bytes (peer closed), a
read error, or a write error stops it, stopping only that connection's
loop. -/
theorem claim_C9 (writeOk : List Nat → Bool) (chunks : List (List Nat))
    (rest : List ReadEvent) (c : List Nat)
    (hok : ∀ x ∈ chunks, x ≠ [] ∧ writeOk x = true)
    (hcne : c ≠ []) (hcw : writeOk c = false) :
    handle_client writeOk (chunks.map ReadEvent.ok ++ [ReadEvent.ok []]) =
      (chunks, some StopReason.peerClosed) ∧
    handle_client writeOk
        (chunks.map ReadEvent.ok ++ ReadEvent.failed :: rest) =
      (chunks, some StopReason.readFailed) ∧
    handle_client writeOk
        (chunks.map ReadEvent.ok ++ ReadEvent.ok c :: rest) =
      (chunks, some StopReason.writeFailed) := by
  induction chunks with
  | nil =>
    have hclen : ¬c.length = 0 := by
      intro h
      exact hcne (List.eq_nil_of_length_eq_zero h)
    refine ⟨rfl, rfl, ?_⟩
    simp only [List.map_nil, List.nil_append, handle_client, if_neg hclen,
      hcw]
    simp
  | cons x xs ih =>
    have hx := hok x (List.mem_cons_self x xs)
    have hlen : ¬x.length = 0 := by
      intro h
      exact hx.1 (List.eq_nil_of_length_eq_zero h)
    have ihs := ih (fun y hy => hok y (List.mem_cons_of_mem x hy))
    refine ⟨?_, ?_, ?_⟩
    · simp only [List.map_cons, List.cons_append, handle_client,
        if_neg hlen, if_pos hx.2, List.append_eq, ihs.1]
    · simp only [List.map_cons, List.cons_append, handle_client,
        if_neg hlen, if_pos hx.2, List.append_eq, ihs.2.1]
    · simp only [List.map_cons, List.cons_append, handle_client,
        if_neg hlen, if_pos hx.2, List.append_eq, ihs.2.2]

/-- Claim C9 witness: with writes failing exactly on the chunk `[4]`, two
chunks followed by the peer closing are echoed verbatim in order; followed
by a read error they are echoed and the loop stops with a read failure;
followed by the chunk `[4]` they are echoed and the loop stops with a
write failure. -/
theorem claim_C9_witness :
    handle_client (fun x => decide (x ≠ [4]))
        [ReadEvent.ok [1, 2], ReadEvent.ok [3], ReadEvent.ok []] =
      ([[1, 2], [3]], some StopReason.peerClosed) ∧
    handle_client (fun x => decide (x ≠ [4]))
        [ReadEvent.ok [1, 2], ReadEvent.ok [3], ReadEvent.failed] =
      ([[1, 2], [3]], some StopReason.readFailed) ∧
    handle_client (fun x => decide (x ≠ [4]))
        [ReadEvent.ok [1, 2], ReadEvent.ok [3], ReadEvent.ok [4]] =
      ([[1, 2], [3]], some StopReason.writeFailed) :=
  claim_C9 (fun x => decide (x ≠ [4])) [[1, 2], [3]] [] [4] (by decide)
    (by decide) (by decide)

/-- Claim C10: a returned port lies inside `[start, e]`, and exactly one
probe task is spawned per port of the range (the spawned handles carry
precisely the ports of the range, each occurring exactly once). -/
theorem claim_C10 (env : NetEnv) (joinOk : Nat → Bool) (delay : Nat → Nat)
    (start e p q : Nat) :
    (find_available_port_parallel env joinOk delay start e = some p →
      start ≤ p ∧ p ≤ e) ∧
    ((portRange start e).map (spawn_probe env joinOk delay)).map
        TaskHandle.port = portRange start e ∧
    List.count q (portRange start e) =
      (if start ≤ q ∧ q ≤ e then 1 else 0) := by
  refine ⟨?_, ?_, ?_⟩
  · intro h
    have := (find_spec env joinOk delay start e p).1 h
    exact ⟨this.1, this.2.1⟩
  · rw [List.map_map]
    have : TaskHandle.port ∘ spawn_probe env joinOk delay = id := by
      funext x
      rfl
    rw [this, List.map_id]
  · unfold portRange
    by_cases hq : start ≤ q ∧ q ≤ e
    · rw [if_pos hq]
      exact List.count_eq_one_of_mem (List.nodup_range' _ _)
        (List.mem_range'_1.2 ⟨hq.1, by omega⟩)
    · rw [if_neg hq]
      refine List.count_eq_zero_of_not_mem ?_
      rw [List.mem_range'_1]
      omega

/-- Claim C10 witness: the scan of the all-free range `[3, 7]` returns a
port within bounds, and port 5 occurs exactly once among the spawned
probes. -/
theorem claim_C10_witness :
    (3 ≤ 3 ∧ 3 ≤ 7) ∧ List.count 5 (portRange 3 7) = 1 :=
  ⟨(claim_C10 envAllFree (fun _ => true) (fun _ => 0) 3 7 3 5).1 (by decide),
   by
    have h := (claim_C10 envAllFree (fun _ => true) (fun _ => 0) 3 7 3 5).2.2
    simpa using h⟩

end Netcore
